import Mathlib

/-!
Verification of the LANscape scan core against its specification.

The Python sources are shallowly embedded: Python strings become `List Char`,
bytes become `List Nat`, machine integers become `Nat`/`Int`, raised
exceptions become `Except` errors, and concurrently observed state becomes an
explicit observation function.  Each embedded definition is translated from
the corresponding source function; definitions that model repository code that
is absent from the source snapshot carry a doc comment starting with
`Modelled from the spec:`.
-/

/-- Python strings are modelled as lists of characters. -/
abbrev PyStr : Type := List Char

/-- Python byte strings are modelled as lists of byte values. -/
abbrev PyBytes : Type := List Nat

/-- Character classification used by the Python runtime (str.isprintable and
the whitespace class used by str.strip).  The embedding is parametric in it;
`asciiKind` below instantiates it with the actual classification of the ASCII
range. -/
structure PyCharKind where
  printable : Char → Bool
  space : Char → Bool

/-- ASCII instantiation of `PyCharKind`: a character is printable iff its code
is in 0x20..0x7e, and whitespace iff it is one of the six ASCII whitespace
characters.  This agrees with CPython on every ASCII character. -/
def asciiKind : PyCharKind where
  printable := fun c => decide (32 ≤ c.toNat ∧ c.toNat ≤ 126)
  space := fun c => c ∈ [' ', '\t', '\n', '\r', Char.ofNat 11, Char.ofNat 12]

/-- Python str.strip with respect to a whitespace class: drop whitespace from
both ends. -/
def pyStrip (k : PyCharKind) (s : PyStr) : PyStr :=
  ((s.dropWhile k.space).reverse.dropWhile k.space).reverse

/-- Python str.strip with the ASCII whitespace class. -/
def pyStripWs (s : PyStr) : PyStr := pyStrip asciiKind s

/-- Python str.lower, modelled by ASCII lowercasing (exact on the ASCII range,
where all pattern tables of the sources live). -/
def pyLower (s : PyStr) : PyStr := s.map Char.toLower

/-- Python str.upper, modelled by ASCII uppercasing. -/
def pyUpper (s : PyStr) : PyStr := s.map Char.toUpper

/-- Python str.split on a single separator character. -/
def splitOnChar (sep : Char) : PyStr → List PyStr
  | [] => [[]]
  | c :: rest =>
    match splitOnChar sep rest with
    | [] => [[c]]
    | h :: t => if c = sep then [] :: h :: t else (c :: h) :: t

theorem splitOnChar_ne_nil (sep : Char) (s : PyStr) : splitOnChar sep s ≠ [] := by
  cases s with
  | nil => simp [splitOnChar]
  | cons c rest =>
    simp only [splitOnChar]
    cases splitOnChar sep rest with
    | nil => simp
    | cons h t =>
      by_cases hc : c = sep <;> simp [hc]

theorem splitOnChar_of_not_contains (sep : Char) (s : PyStr)
    (h : sep ∉ s) : splitOnChar sep s = [s] := by
  induction s with
  | nil => rfl
  | cons c rest ih =>
    simp only [List.mem_cons, not_or] at h
    simp only [splitOnChar, ih h.2]
    have : ¬ c = sep := fun hcs => h.1 hcs.symm
    simp [this]

/-- First element of a pair list whose score is maximal; earlier elements win
ties.  Shared helper used to phrase the specification side of arg-max style
claims. -/
def pickFirstMax {α : Type} (score : α → Nat) (l : List α) : Option α :=
  l.foldl (fun o c =>
    match o with
    | none => some c
    | some b => if score c > score b then some c else some b) none

theorem foldl_some_step {α : Type} (score : α → Nat) (l : List α) (b : α) :
    l.foldl (fun o c =>
      match o with
      | none => some c
      | some y => if score c > score y then some c else some y) (some b)
    = some (l.foldl (fun y c => if score c > score y then c else y) b) := by
  induction l generalizing b with
  | nil => rfl
  | cons c rest ih =>
    simp only [List.foldl_cons]
    by_cases h : score c > score b <;> simp [h, ih]

theorem pickFirstMax_cons {α : Type} (score : α → Nat) (c : α) (l : List α) :
    pickFirstMax score (c :: l)
    = some (l.foldl (fun y x => if score x > score y then x else y) c) := by
  simp only [pickFirstMax, List.foldl_cons]
  exact foldl_some_step score l c

theorem foldl_max_stay {α : Type} (score : α → Nat) (l : List α) (b : α)
    (h : ∀ x ∈ l, score x ≤ score b) :
    l.foldl (fun y x => if score x > score y then x else y) b = b := by
  induction l with
  | nil => rfl
  | cons c rest ih =>
    simp only [List.foldl_cons]
    have hc : ¬ score c > score b := by
      have := h c (by simp)
      omega
    simp only [hc, if_false]
    exact ih (fun x hx => h x (by simp [hx]))

/-! ## SubnetScanner.terminate (src/src/lanscape/libraries/subnet_scan.py) -/

/-- Running-job map of JobStats, keyed by job name.
Modelled from the spec: the JobStats class itself lives in the decorators
module, which is absent from the source snapshot; the spec describes
`running` as a map from job name to in-flight count.  `terminate` only reads
the keys of this map, so it is abstracted into an observation function
`obs : Nat → RunMap` giving the map seen at the i-th poll. -/
abbrev RunMap : Type := List (PyStr × Nat)

/-- Poll loop of SubnetScanner.terminate: starting at poll index `start`
with `fuel` polls left, return the index of the first poll at which the
running map is empty. -/
def pollFirst (obs : Nat → RunMap) : Nat → Nat → Option Nat
  | _, 0 => none
  | start, fuel + 1 =>
    if (obs start).isEmpty then some start else pollFirst obs (start + 1) fuel

/-- SubnetScanner.terminate polls the running map 20 times. -/
def SubnetScanner.terminate_poll (obs : Nat → RunMap) : Option Nat :=
  pollFirst obs 0 20

/-- SubnetScanner.terminate: if some of the 20 polls sees an empty running
map, the stage is set to terminated and the call returns; otherwise it
raises SubnetScanTerminationFailure carrying the residual running map (the
map observed after the loop, index 20).
Modelled from the spec: the SubnetScanTerminationFailure class is absent
from errors.py in the source snapshot; the spec says it carries the residual
running map, here the error payload. -/
def SubnetScanner.terminate (obs : Nat → RunMap) : Except RunMap PyStr :=
  match SubnetScanner.terminate_poll obs with
  | some _ => Except.ok ("terminated".toList)
  | none => Except.error (obs 20)

/-- Number of sleep(0.5) calls executed by terminate: one after every
unsuccessful poll (the loop body sleeps even on its final iteration). -/
def SubnetScanner.terminate_sleeps (obs : Nat → RunMap) : Nat :=
  match SubnetScanner.terminate_poll obs with
  | some i => i
  | none => 20

/-- Number of polls of the running map executed by terminate. -/
def SubnetScanner.terminate_polls (obs : Nat → RunMap) : Nat :=
  match SubnetScanner.terminate_poll obs with
  | some i => i + 1
  | none => 20

theorem pollFirst_some_spec (obs : Nat → RunMap) :
    ∀ fuel start i, pollFirst obs start fuel = some i →
      start ≤ i ∧ i < start + fuel ∧ (obs i).isEmpty = true ∧
      ∀ j, start ≤ j → j < i → (obs j).isEmpty = false := by
  intro fuel
  induction fuel with
  | zero => intro start i h; simp [pollFirst] at h
  | succ f ih =>
    intro start i h
    simp only [pollFirst] at h
    by_cases he : (obs start).isEmpty
    · simp only [he, if_true, Option.some.injEq] at h
      subst h
      exact ⟨le_refl _, by omega, he, fun j h1 h2 => by omega⟩
    · simp only [he, if_false] at h
      obtain ⟨h1, h2, h3, h4⟩ := ih (start + 1) i h
      refine ⟨by omega, by omega, h3, fun j hj1 hj2 => ?_⟩
      by_cases hjs : j = start
      · subst hjs; exact Bool.eq_false_iff.mpr he
      · exact h4 j (by omega) hj2

theorem pollFirst_none_spec (obs : Nat → RunMap) :
    ∀ fuel start, pollFirst obs start fuel = none →
      ∀ j, start ≤ j → j < start + fuel → (obs j).isEmpty = false := by
  intro fuel
  induction fuel with
  | zero => intro start _ j h1 h2; omega
  | succ f ih =>
    intro start h j h1 h2
    simp only [pollFirst] at h
    by_cases he : (obs start).isEmpty
    · simp [he] at h
    · simp only [he, if_false] at h
      by_cases hjs : j = start
      · subst hjs; exact Bool.eq_false_iff.mpr he
      · exact ih (start + 1) h j (by omega) (by omega)

/-- Claim C4: SubnetScanner.terminate polls at most 20 times at 0.5 second
intervals (hence waits at most 10 seconds); if a poll sees the running map
empty, the first such poll ends the loop with stage terminated and the
observed running map empty (and no earlier poll saw an empty map); if all 20
polls see a non-empty map, terminate raises SubnetScanTerminationFailure
carrying the residual running map. -/
theorem terminate_spec (obs : Nat → RunMap) :
    SubnetScanner.terminate_polls obs ≤ 20 ∧
    SubnetScanner.terminate_sleeps obs ≤ 20 ∧
    (∀ i, SubnetScanner.terminate_poll obs = some i →
      i < 20 ∧ (obs i).isEmpty = true ∧
      (∀ j, j < i → (obs j).isEmpty = false) ∧
      SubnetScanner.terminate obs = Except.ok ("terminated".toList) ∧
      SubnetScanner.terminate_sleeps obs = i) ∧
    (SubnetScanner.terminate_poll obs = none →
      (∀ j, j < 20 → (obs j).isEmpty = false) ∧
      SubnetScanner.terminate obs = Except.error (obs 20)) := by
  refine ⟨?_, ?_, ?_, ?_⟩
  · unfold SubnetScanner.terminate_polls
    cases h : SubnetScanner.terminate_poll obs with
    | none => simp
    | some i =>
      obtain ⟨_, h2, _, _⟩ := pollFirst_some_spec obs 20 0 i h
      simp only []
      omega
  · unfold SubnetScanner.terminate_sleeps
    cases h : SubnetScanner.terminate_poll obs with
    | none => simp
    | some i =>
      obtain ⟨_, h2, _, _⟩ := pollFirst_some_spec obs 20 0 i h
      simp only []
      omega
  · intro i h
    obtain ⟨_, h2, h3, h4⟩ := pollFirst_some_spec obs 20 0 i h
    refine ⟨by omega, h3, fun j hj => h4 j (by omega) hj, ?_, ?_⟩
    · unfold SubnetScanner.terminate
      rw [h]
    · unfold SubnetScanner.terminate_sleeps
      rw [h]
  · intro h
    refine ⟨fun j hj => pollFirst_none_spec obs 20 0 h j (by omega) (by omega), ?_⟩
    unfold SubnetScanner.terminate
    rw [h]

/-- Sample observation: the running map empties at the third poll. -/
def obsEmptiesAt2 : Nat → RunMap :=
  fun n => if n < 2 then [(("_ping".toList), 1)] else []

/-- Sample observation: the running map never empties. -/
def obsStuck : Nat → RunMap :=
  fun _ => [(("_test_port".toList), 3)]

/-- Witness for C4: both branches of terminate_spec applied at concrete
observations. -/
theorem terminate_spec_witness :
    SubnetScanner.terminate obsEmptiesAt2 = Except.ok ("terminated".toList) ∧
    SubnetScanner.terminate_sleeps obsEmptiesAt2 = 2 ∧
    SubnetScanner.terminate obsStuck = Except.error (obsStuck 20) := by
  have h1 := (terminate_spec obsEmptiesAt2).2.2.1 2 (by decide)
  have h2 := (terminate_spec obsStuck).2.2.2 (by decide)
  exact ⟨h1.2.2.2.1, h1.2.2.2.2, h2.2⟩

/-! ## SubnetScanner stage machine (src/src/lanscape/libraries/subnet_scan.py) -/

/-- Observable scan state: the running flag of the scanner, the stage string
of its ScannerResults, and whether ScannerResults.end_time has been assigned
(it starts as None and _set_stage only ever assigns it). -/
structure ScanPoint where
  running : Bool
  stage : PyStr
  end_time_set : Bool
deriving DecidableEq

/-- SubnetScanner._set_stage: store the stage on the results and, when the
scanner is not running, record the end time. -/
def SubnetScanner.set_stage (st : PyStr) (s : ScanPoint) : ScanPoint :=
  ⟨s.running, st, if s.running then s.end_time_set else true⟩

/-- ScannerResults state as built by the constructor: not running, stage
instantiated, end_time unset. -/
def scanInit : ScanPoint := ⟨false, "instantiated".toList, false⟩

/-- States traversed by SubnetScanner.start, in execution order: the
constructor state, the set_stage call to scanning devices (issued before
running is set to True), running set, set_stage to testing ports, running
cleared, set_stage to complete. -/
def startTrace : List ScanPoint :=
  let s0 := scanInit
  let s1 := SubnetScanner.set_stage ("scanning devices".toList) s0
  let s2 : ScanPoint := ⟨true, s1.stage, s1.end_time_set⟩
  let s3 := SubnetScanner.set_stage ("testing ports".toList) s2
  let s4 : ScanPoint := ⟨false, s3.stage, s3.end_time_set⟩
  let s5 := SubnetScanner.set_stage ("complete".toList) s4
  [s0, s1, s2, s3, s4, s5]

/-- States traversed by SubnetScanner.terminate when called mid scan (from
the state after start entered the device-scanning phase): running cleared,
set_stage to terminating, then on a successful poll set_stage to
terminated. -/
def terminateTrace : List ScanPoint :=
  let s2 : ScanPoint := ⟨true, "scanning devices".toList, true⟩
  let t1 : ScanPoint := ⟨false, s2.stage, s2.end_time_set⟩
  let t2 := SubnetScanner.set_stage ("terminating".toList) t1
  let t3 := SubnetScanner.set_stage ("terminated".toList) t2
  [t1, t2, t3]

/-- Claim C7 counterexample: the claimed invariant (end_time is set iff the
stage is complete or terminated) already fails at the first transition of
start(): start calls _set_stage before setting running to True, so
_set_stage sees running == False and assigns end_time while the stage is
scanning devices.  The same state also refutes the second biconditional,
since running is still False at a non-terminal stage. -/
theorem stage_invariant_counterexample :
    (SubnetScanner.set_stage ("scanning devices".toList) scanInit).end_time_set = true ∧
    (SubnetScanner.set_stage ("scanning devices".toList) scanInit).running = false ∧
    (SubnetScanner.set_stage ("scanning devices".toList) scanInit).stage ≠ ("complete".toList) ∧
    (SubnetScanner.set_stage ("scanning devices".toList) scanInit).stage ≠ ("terminated".toList) := by
  refine ⟨rfl, rfl, ?_, ?_⟩ <;> decide

/-- Claim C7 (amended): along the start and terminate lifecycles, whenever
the stage is complete or terminated, end_time is set and running is false;
the converse directions fail (end_time is also set from the very first stage
transition of start, and running is false at instantiated and
terminating). -/
theorem stage_invariant_amended :
    ((startTrace ++ terminateTrace).all (fun s =>
      !(s.stage == ("complete".toList) || s.stage == ("terminated".toList)) ||
      (s.end_time_set && !s.running))) = true := by
  decide

/-! ## ReliabilityQueue.enqueue (src/lanscape/core/reliability_queue.py) -/

/-- Reliability job as created by enqueue: an id, a config value (the model
of the deep-copied ScanConfig; the config type is abstract here), the label,
and the status string.  The remaining fields (timestamps, scan id, error,
snapshot) are not touched by enqueue. -/
structure ReliabilityJob (α : Type) where
  id : PyStr
  config : α
  label : PyStr
  status : PyStr
deriving DecidableEq

/-- Model of ScanConfig.model_copy(deep=True): configs are values in the
embedding, so a deep copy is the identity on the value. -/
def deep_copy {α : Type} (c : α) : α := c

/-- ReliabilityQueue.enqueue: append max(1, repeat) jobs to the queue, each
with its own deep-copied config and status queued; the label falls back to
Run followed by the first 8 characters of the job id when the given label is
falsy (None or empty).  `ids i` supplies the uuid of the i-th created job.
Returns the new queue and the created jobs. -/
def ReliabilityQueue.enqueue {α : Type} (queue : List (ReliabilityJob α))
    (config : α) (label : PyStr) (ids : Nat → PyStr) (repeatCnt : Int) :
    List (ReliabilityJob α) × List (ReliabilityJob α) :=
  let count : Int := max 1 repeatCnt
  let created := (List.range count.toNat).map (fun i =>
    ⟨ids i,
     deep_copy config,
     if label = [] then ("Run ".toList) ++ (ids i).take 8 else label,
     "queued".toList⟩)
  (queue ++ created, created)

/-- Clamp applied by the HTTP endpoint enqueue_reliability_job before it
calls ReliabilityQueue.enqueue (src/lanscape/ui/blueprints/api/reliability.py):
repeat = max(1, min(repeat_raw, 50)). -/
def apiRepeatClamp (raw : Int) : Int := max 1 (min raw 50)

/-- Claim C8 counterexample: ReliabilityQueue.enqueue itself does not clamp
repeat to 50; called with repeat = 51 it appends 51 jobs, not
clamp(51, 1, 50) = 50. -/
theorem enqueue_counterexample :
    (ReliabilityQueue.enqueue ([] : List (ReliabilityJob Unit)) () []
      (fun _ => []) 51).2.length = 51 ∧
    (ReliabilityQueue.enqueue ([] : List (ReliabilityJob Unit)) () []
      (fun _ => []) 51).2.length ≠ (apiRepeatClamp 51).toNat := by
  exact ⟨by decide, by decide⟩

/-- Claim C8 (amended): ReliabilityQueue.enqueue appends exactly
max(1, repeat) jobs (only a lower clamp; the 1..50 clamp is applied by the
HTTP endpoint before calling enqueue), each with its own deep-copied config
and status queued; in particular, through the endpoint clamp the number of
appended jobs is clamp(repeat_raw, 1, 50), which never exceeds 50. -/
theorem enqueue_amended {α : Type} (queue : List (ReliabilityJob α))
    (config : α) (label : PyStr) (ids : Nat → PyStr) (repeatCnt : Int) :
    (ReliabilityQueue.enqueue queue config label ids repeatCnt).2.length
      = (max 1 repeatCnt).toNat ∧
    (ReliabilityQueue.enqueue queue config label ids repeatCnt).1
      = queue ++ (ReliabilityQueue.enqueue queue config label ids repeatCnt).2 ∧
    (∀ j ∈ (ReliabilityQueue.enqueue queue config label ids repeatCnt).2,
      j.status = ("queued".toList) ∧ j.config = deep_copy config) ∧
    ((ReliabilityQueue.enqueue queue config label ids (apiRepeatClamp repeatCnt)).2.length
      = (max 1 (min repeatCnt 50)).toNat ∧
     (ReliabilityQueue.enqueue queue config label ids (apiRepeatClamp repeatCnt)).2.length ≤ 50) := by
  refine ⟨?_, ?_, ?_, ?_, ?_⟩
  · simp [ReliabilityQueue.enqueue]
  · rfl
  · intro j hj
    simp only [ReliabilityQueue.enqueue, List.mem_map] at hj
    obtain ⟨i, _, hi⟩ := hj
    subst hi
    exact ⟨rfl, rfl⟩
  · simp [ReliabilityQueue.enqueue, apiRepeatClamp]
  · simp only [ReliabilityQueue.enqueue, List.length_map, List.length_range]
    unfold apiRepeatClamp
    omega

/-- Witness for C8 (amended) at concrete values: three jobs are appended,
the first one has status queued and carries the config value. -/
theorem enqueue_amended_witness :
    (ReliabilityQueue.enqueue ([] : List (ReliabilityJob Nat)) 7 []
      (fun _ => []) 3).2.length = 3 ∧
    (∀ j ∈ (ReliabilityQueue.enqueue ([] : List (ReliabilityJob Nat)) 7 []
      (fun _ => []) 3).2, j.status = ("queued".toList) ∧ j.config = deep_copy 7) := by
  have h := enqueue_amended ([] : List (ReliabilityJob Nat)) 7 [] (fun _ => []) 3
  exact ⟨h.1, h.2.2.1⟩

/-! ## ScanConfig serialization (src/src/lanscape/libraries/scan_config.py) -/

/-- ScanType enum of the scan_config module: members PING, ARP, BOTH with
values ping, arp, both. -/
inductive ScanType where
  | PING
  | ARP
  | BOTH
deriving DecidableEq, Fintype

/-- Name of a ScanType member, as used by Enum name lookup. -/
def ScanType.memberName : ScanType → PyStr
  | ScanType.PING => "PING".toList
  | ScanType.ARP => "ARP".toList
  | ScanType.BOTH => "BOTH".toList

/-- Value of a ScanType member. -/
def ScanType.memberValue : ScanType → PyStr
  | ScanType.PING => "ping".toList
  | ScanType.ARP => "arp".toList
  | ScanType.BOTH => "both".toList

/-- Python Enum subscription ScanType[name]: lookup by member name,
case-sensitively; a miss raises KeyError (modelled as none). -/
def ScanType.memberLookup (s : PyStr) : Option ScanType :=
  if s = ("PING".toList) then some ScanType.PING
  else if s = ("ARP".toList) then some ScanType.ARP
  else if s = ("BOTH".toList) then some ScanType.BOTH
  else none

/-- Python exceptions surfaced by ScanConfig.from_dict. -/
inductive PyErr where
  | attributeError
  | keyError
deriving DecidableEq

/-- Python values that can appear in a config dict: strings, numbers,
booleans, nested dicts, ScanType enum members, and PingConfig or ArpConfig
dataclass instances (carried as their field values). -/
inductive PyVal where
  | pstr (s : PyStr)
  | pnum (q : ℚ)
  | pbool (b : Bool)
  | pdict (d : List (PyStr × PyVal))
  | penum (t : ScanType)
  | pping (attempts ping_count timeout retry_delay : PyVal)
  | parp (attempts timeout : PyVal)

/-- dict.get(key, default) as written in the from_dict methods: the default
expression getattr(cls, field) is evaluated eagerly, before the key is
looked up, so an AttributeError from it escapes even when the key is
present. -/
def pyDictGet (data : List (PyStr × PyVal)) (key : PyStr)
    (dflt : Except PyErr PyVal) : Except PyErr PyVal := do
  let d ← dflt
  match data.lookup key with
  | some v => pure v
  | none => pure d

/-- PingConfig.from_dict: every PingConfig field has a plain default, so the
class attributes exist and the lookup always succeeds. -/
def PingConfig.from_dict (data : List (PyStr × PyVal)) : PyVal :=
  PyVal.pping
    ((data.lookup ("attempts".toList)).getD (PyVal.pnum 1))
    ((data.lookup ("ping_count".toList)).getD (PyVal.pnum 2))
    ((data.lookup ("timeout".toList)).getD (PyVal.pnum 1))
    ((data.lookup ("retry_delay".toList)).getD (PyVal.pnum (1/2)))

/-- ArpConfig.from_dict, analogous to PingConfig.from_dict. -/
def ArpConfig.from_dict (data : List (PyStr × PyVal)) : PyVal :=
  PyVal.parp
    ((data.lookup ("attempts".toList)).getD (PyVal.pnum 1))
    ((data.lookup ("timeout".toList)).getD (PyVal.pnum 1))

/-- ScanConfig dataclass value: one slot per field, in declaration order. -/
structure ScanConfigV where
  subnet : PyVal
  port_list : PyVal
  t_multiplier : PyVal
  t_cnt_port_scan : PyVal
  t_cnt_port_test : PyVal
  t_cnt_isalive : PyVal
  task_scan_ports : PyVal
  task_scan_port_services : PyVal
  lookup_type : PyVal
  ping_config : PyVal
  arp_config : PyVal

/-- ScanConfig.from_dict: build init_args with
data.get(f.name, getattr(ScanConfig, f.name)) for every dataclass field in
declaration order, then convert dict-valued sub-configs and a string-valued
lookup_type (via ScanType[s.lower()], a member-name lookup).  The dataclass
has no class attribute for subnet and port_list (no default) nor for
ping_config and arp_config (default_factory), so getattr raises
AttributeError there, and it is evaluated eagerly inside dict.get. -/
def ScanConfig.from_dict (data : List (PyStr × PyVal)) :
    Except PyErr ScanConfigV := do
  let subnet ← pyDictGet data ("subnet".toList) (Except.error PyErr.attributeError)
  let port_list ← pyDictGet data ("port_list".toList) (Except.error PyErr.attributeError)
  let t_multiplier ← pyDictGet data ("t_multiplier".toList) (Except.ok (PyVal.pnum 1))
  let t_cnt_port_scan ← pyDictGet data ("t_cnt_port_scan".toList) (Except.ok (PyVal.pnum 10))
  let t_cnt_port_test ← pyDictGet data ("t_cnt_port_test".toList) (Except.ok (PyVal.pnum 128))
  let t_cnt_isalive ← pyDictGet data ("t_cnt_isalive".toList) (Except.ok (PyVal.pnum 256))
  let task_scan_ports ← pyDictGet data ("task_scan_ports".toList) (Except.ok (PyVal.pbool true))
  let task_scan_port_services ← pyDictGet data ("task_scan_port_services".toList) (Except.ok (PyVal.pbool false))
  let lookup_type0 ← pyDictGet data ("lookup_type".toList) (Except.ok (PyVal.penum ScanType.BOTH))
  let ping_config0 ← pyDictGet data ("ping_config".toList) (Except.error PyErr.attributeError)
  let arp_config0 ← pyDictGet data ("arp_config".toList) (Except.error PyErr.attributeError)
  let ping_config :=
    match ping_config0 with
    | PyVal.pdict d => PingConfig.from_dict d
    | v => v
  let arp_config :=
    match arp_config0 with
    | PyVal.pdict d => ArpConfig.from_dict d
    | v => v
  let lookup_type ←
    match lookup_type0 with
    | PyVal.pstr s =>
      match ScanType.memberLookup (pyLower s) with
      | some t => Except.ok (PyVal.penum t)
      | none => Except.error PyErr.keyError
    | v => Except.ok v
  Except.ok ⟨subnet, port_list, t_multiplier, t_cnt_port_scan, t_cnt_port_test,
    t_cnt_isalive, task_scan_ports, task_scan_port_services, lookup_type,
    ping_config, arp_config⟩

/-- Serialization of a sub-config into a dict entry for to_dict. -/
def PyVal.serializeSub : PyVal → PyVal
  | PyVal.pping a b c d => PyVal.pdict
      [(("attempts".toList), a), (("ping_count".toList), b),
       (("timeout".toList), c), (("retry_delay".toList), d)]
  | PyVal.parp a b => PyVal.pdict
      [(("attempts".toList), a), (("timeout".toList), b)]
  | v => v

/-- Modelled from the spec: ScanConfig.to_dict is absent from the
scan_config module in the source snapshot; the spec requires a dict with the
recognized keys, the lookup_type serialized as the enum name (case
insensitive on deserialization), and ping_config and arp_config serialized
as nested dicts. -/
def ScanConfig.to_dict (c : ScanConfigV) : List (PyStr × PyVal) :=
  [(("subnet".toList), c.subnet),
   (("port_list".toList), c.port_list),
   (("t_multiplier".toList), c.t_multiplier),
   (("t_cnt_port_scan".toList), c.t_cnt_port_scan),
   (("t_cnt_port_test".toList), c.t_cnt_port_test),
   (("t_cnt_isalive".toList), c.t_cnt_isalive),
   (("task_scan_ports".toList), c.task_scan_ports),
   (("task_scan_port_services".toList), c.task_scan_port_services),
   (("lookup_type".toList),
     match c.lookup_type with
     | PyVal.penum t => PyVal.pstr (ScanType.memberName t)
     | v => v),
   (("ping_config".toList), PyVal.serializeSub c.ping_config),
   (("arp_config".toList), PyVal.serializeSub c.arp_config)]

/-- Sample configuration with every recognized field populated. -/
def sampleScanConfig : ScanConfigV :=
  ⟨PyVal.pstr ("192.168.1.0/24".toList), PyVal.pstr ("medium".toList),
   PyVal.pnum 1, PyVal.pnum 10, PyVal.pnum 128, PyVal.pnum 256,
   PyVal.pbool true, PyVal.pbool false, PyVal.penum ScanType.PING,
   PyVal.pping (PyVal.pnum 1) (PyVal.pnum 2) (PyVal.pnum 1) (PyVal.pnum (1/2)),
   PyVal.parp (PyVal.pnum 1) (PyVal.pnum 1)⟩

/-- Claim C1: the round trip ScanConfig.from_dict(C.to_dict()) never returns
a config at all.  from_dict evaluates getattr(ScanConfig, field) eagerly as
the dict.get default; subnet has no dataclass default and hence no class
attribute, so every call raises AttributeError — in particular on the
serialized form of any config.  Moreover, even with the defaults repaired,
the lookup_type conversion ScanType[s.lower()] is a case-sensitive member
name lookup against the uppercase member names, so it raises KeyError for
the serialized name of every member. -/
theorem scanconfig_roundtrip_raises :
    (∀ data, ScanConfig.from_dict data = Except.error PyErr.attributeError) ∧
    ScanConfig.from_dict (ScanConfig.to_dict sampleScanConfig)
      = Except.error PyErr.attributeError ∧
    (∀ t : ScanType, ScanType.memberLookup (pyLower (ScanType.memberName t)) = none) := by
  refine ⟨fun data => rfl, rfl, ?_⟩
  decide

/-! ## IP expression parsing (src/src/lanscape/libraries/ip_parser.py) -/

/-- Maximum number of IP addresses allowed per parse. -/
def MAX_IPS_ALLOWED : Nat := 10000

/-- Exceptions raised by parse_ip_input: SubnetTooLargeError carrying the
whole input expression and the cap; ValueError from the ipaddress
constructors on malformed input; TypeError from calling IPv4Address with the
unsupported strict keyword argument. -/
inductive ParseErr where
  | subnetTooLarge (subnet : PyStr) (max_ips : Nat)
  | valueError
  | typeError
deriving DecidableEq

/-- Decimal value of an ASCII digit string (callers validate digits). -/
def digitsToNat (s : PyStr) : Nat :=
  s.foldl (fun a c => a * 10 + (c.toNat - 48)) 0

/-- CPython ipaddress octet parsing: 1 to 3 ASCII digits, no leading zero in
a multi-digit octet, value at most 255. -/
def parse_octet (s : PyStr) : Option Nat :=
  if s = [] then none
  else if s.length > 3 then none
  else if ¬ (s.all Char.isDigit) then none
  else if s.length > 1 ∧ s.headI = ('0') then none
  else if digitsToNat s ≤ 255 then some (digitsToNat s) else none

/-- CPython ipaddress dotted-quad parsing: exactly four valid octets,
returned as the 32-bit integer value of the address. -/
def parse_ipv4 (s : PyStr) : Option Nat :=
  match splitOnChar ('.') s with
  | [a, b, c, d] => do
    let va ← parse_octet a
    let vb ← parse_octet b
    let vc ← parse_octet c
    let vd ← parse_octet d
    pure (((va * 256 + vb) * 256 + vc) * 256 + vd)
  | _ => none

/-- CPython ipaddress prefix-length parsing: a non-empty ASCII digit string
whose value is at most 32 (integer prefixes; netmask-shaped prefixes are not
used by this repository and are not modelled). -/
def parse_prefixlen (s : PyStr) : Option Nat :=
  if s = [] then none
  else if ¬ (s.all Char.isDigit) then none
  else if digitsToNat s ≤ 32 then some (digitsToNat s) else none

/-- ipaddress.IPv4Network(entry, strict=False): split on the slash, parse
the address and the prefix length; strict=False keeps the host bits in the
address (they are masked away when computing the network address). -/
def IPv4Network.parse (s : PyStr) : Option (Nat × Nat) :=
  match splitOnChar ('/') s with
  | [a, p] => do
    let addr ← parse_ipv4 a
    let n ← parse_prefixlen p
    pure (addr, n)
  | _ => none

/-- Number of addresses of a /n IPv4 network. -/
def num_addresses (n : Nat) : Nat := 2 ^ (32 - n)

/-- Network address of the /n network containing addr (host bits cleared). -/
def network_address (addr n : Nat) : Nat :=
  addr / 2 ^ (32 - n) * 2 ^ (32 - n)

/-- IPv4Network.hosts(): for prefixes up to /30 every address strictly
between the network and broadcast addresses; /31 yields both addresses and
/32 the single address. -/
def IPv4Network.hostsList (addr n : Nat) : List Nat :=
  let net := network_address addr n
  if n ≤ 30 then List.range' (net + 1) (num_addresses n - 2)
  else if n = 31 then [net, net + 1]
  else [net]

/-- Yield the range of IPs from start_ip to end_ip inclusive (empty when the
end precedes the start, as range() is). -/
def ip_range_to_list (start_ip end_ip : Nat) : List Nat :=
  if start_ip ≤ end_ip then List.range' start_ip (end_ip - start_ip + 1) else []

/-- Decimal digit string of an octet value (below 256, so at most three
digits). -/
def octetToDigits (n : Nat) : PyStr :=
  if n < 10 then [Char.ofNat (48 + n)]
  else if n < 100 then [Char.ofNat (48 + n / 10), Char.ofNat (48 + n % 10)]
  else [Char.ofNat (48 + n / 100), Char.ofNat (48 + n / 10 % 10), Char.ofNat (48 + n % 10)]

/-- Dotted-quad rendering of a 32-bit address value, as str(IPv4Address)
and IPv4Address.exploded produce it. -/
def ipv4ToString (addr : Nat) : PyStr :=
  octetToDigits (addr / 2 ^ 24 % 256) ++ [('.')] ++
  octetToDigits (addr / 2 ^ 16 % 256) ++ [('.')] ++
  octetToDigits (addr / 2 ^ 8 % 256) ++ [('.')] ++
  octetToDigits (addr % 256)

/-- parse_ip_range: split the entry on the dash into exactly two parts,
parse the start address; when the end part carries no dot, complete it with
the first three octets of the start address (start_ip.exploded rsplit at the
last dot) before parsing; expand to the inclusive range. -/
def parse_ip_range (entry : PyStr) : Except ParseErr (List Nat) :=
  match splitOnChar ('-') entry with
  | [s0, e0] =>
    match parse_ipv4 (pyStripWs s0) with
    | none => Except.error ParseErr.valueError
    | some start_ip =>
      if ('.') ∈ e0 then
        match parse_ipv4 (pyStripWs e0) with
        | none => Except.error ParseErr.valueError
        | some end_ip => Except.ok (ip_range_to_list start_ip end_ip)
      else
        match parse_octet (pyStripWs e0) with
        | none => Except.error ParseErr.valueError
        | some o => Except.ok (ip_range_to_list start_ip (start_ip / 256 * 256 + o))
  | _ => Except.error ParseErr.valueError

/-- One loop iteration of parse_ip_input over a stripped entry: entries with
a slash go through IPv4Network (checking num_addresses against the cap
before expanding hosts), entries with a dash through parse_ip_range, and all
remaining entries reach IPv4Address(entry, strict=False), which raises
TypeError because IPv4Address accepts no strict keyword argument (the
shorthand-range regex branch before it is unreachable: every match of
digits-dash-digits contains a dash and is consumed by the dash branch). -/
def parse_entry (ip_input : PyStr) (acc : List Nat) (entry : PyStr) :
    Except ParseErr (List Nat) :=
  if ('/') ∈ entry then
    match IPv4Network.parse entry with
    | none => Except.error ParseErr.valueError
    | some (addr, n) =>
      if num_addresses n > MAX_IPS_ALLOWED then
        Except.error (ParseErr.subnetTooLarge ip_input MAX_IPS_ALLOWED)
      else
        Except.ok (acc ++ IPv4Network.hostsList addr n)
  else if ('-') ∈ entry then
    match parse_ip_range entry with
    | Except.ok l => Except.ok (acc ++ l)
    | Except.error e => Except.error e
  else
    Except.error ParseErr.typeError

/-- Entry loop of parse_ip_input: expand the entries in order, and after
each entry raise SubnetTooLargeError (carrying the whole input and the cap)
if the accumulated address count exceeds the cap. -/
def parse_ip_input_loop (ip_input : PyStr) (acc : List Nat) :
    List PyStr → Except ParseErr (List Nat)
  | [] => Except.ok acc
  | e :: rest =>
    match parse_entry ip_input acc e with
    | Except.error err => Except.error err
    | Except.ok acc2 =>
      if acc2.length > MAX_IPS_ALLOWED then
        Except.error (ParseErr.subnetTooLarge ip_input MAX_IPS_ALLOWED)
      else
        parse_ip_input_loop ip_input acc2 rest

/-- parse_ip_input: split the input on commas, strip each entry, and run the
entry loop. -/
def parse_ip_input (ip_input : PyStr) : Except ParseErr (List Nat) :=
  parse_ip_input_loop ip_input [] ((splitOnChar (',') ip_input).map pyStripWs)

theorem IPv4Network.parse_mem_slash (e : PyStr) (p : Nat × Nat)
    (h : IPv4Network.parse e = some p) : ('/') ∈ e := by
  by_contra h'
  rw [IPv4Network.parse, splitOnChar_of_not_contains _ _ h'] at h
  simp at h

/-- Claim C2: the oversize guard of parse_ip_input.  A lone oversize CIDR
raises SubnetTooLargeError carrying the whole expression and the cap, and so
does a pair of CIDRs whose cumulative expansion crosses the cap; but an
expression whose expansion would cross the cap can instead die with
TypeError, because every fragment that is neither a CIDR nor a dashed range
reaches IPv4Address(entry, strict=False), and IPv4Address accepts no strict
keyword argument. -/
theorem parse_ip_input_oversize :
    parse_ip_input ("1.1.1.1, 10.0.0.0/16".toList) = Except.error ParseErr.typeError ∧
    parse_ip_input ("10.0.0.0/16".toList)
      = Except.error (ParseErr.subnetTooLarge ("10.0.0.0/16".toList) 10000) ∧
    parse_ip_input ("10.0.0.0/19, 10.0.64.0/19".toList)
      = Except.error (ParseErr.subnetTooLarge ("10.0.0.0/19, 10.0.64.0/19".toList) 10000) := by
  refine ⟨rfl, rfl, ?_⟩
  unfold parse_ip_input
  show parse_ip_input_loop _ [] [("10.0.0.0/19".toList), ("10.0.64.0/19".toList)] = _
  have hpe1 : parse_entry ("10.0.0.0/19, 10.0.64.0/19".toList) [] ("10.0.0.0/19".toList)
      = Except.ok (List.range' 167772161 8190) := by
    unfold parse_entry
    rw [if_pos (by decide)]
    simp only [show IPv4Network.parse ("10.0.0.0/19".toList) = some (167772160, 19) from by decide]
    rw [if_neg (by decide)]
    rfl
  have hpe2 : parse_entry ("10.0.0.0/19, 10.0.64.0/19".toList)
      (List.range' 167772161 8190) ("10.0.64.0/19".toList)
      = Except.ok (List.range' 167772161 8190 ++ List.range' 167788545 8190) := by
    unfold parse_entry
    rw [if_pos (by decide)]
    simp only [show IPv4Network.parse ("10.0.64.0/19".toList) = some (167788544, 19) from by decide]
    rw [if_neg (by decide)]
    rfl
  have hl1 : ¬ ((List.range' 167772161 8190 : List Nat).length > MAX_IPS_ALLOWED) := by
    rw [List.length_range']
    decide
  have hl2 : ((List.range' 167772161 8190 ++ List.range' 167788545 8190 : List Nat).length
      > MAX_IPS_ALLOWED) := by
    rw [List.length_append, List.length_range', List.length_range']
    decide
  unfold parse_ip_input_loop
  simp only [hpe1]
  rw [if_neg hl1]
  unfold parse_ip_input_loop
  simp only [hpe2]
  rw [if_pos hl2]
  rfl

/-- Claim C5: for every single-fragment input that IPv4Network accepts with
a prefix length below 31 and within the address cap, parse_ip_input returns
exactly the host addresses: the network address is masked from the given
address (host bits are accepted, strict off), and the result is every
address strictly between the network and broadcast addresses. -/
theorem parse_cidr_hosts (s : PyStr) (addr n : Nat)
    (hnc : (',') ∉ s)
    (hp : IPv4Network.parse (pyStripWs s) = some (addr, n))
    (hn : n < 31)
    (hcap : num_addresses n ≤ MAX_IPS_ALLOWED) :
    parse_ip_input s
      = Except.ok (List.range' (network_address addr n + 1) (num_addresses n - 2)) ∧
    (∀ x, x ∈ List.range' (network_address addr n + 1) (num_addresses n - 2) ↔
      network_address addr n < x ∧ x < network_address addr n + num_addresses n - 1) := by
  have hfour : 4 ≤ num_addresses n := by
    have h22 : (2 : Nat) ^ 2 ≤ 2 ^ (32 - n) :=
      Nat.pow_le_pow_right (by norm_num) (by omega)
    simpa [num_addresses] using h22
  constructor
  · have hslash : ('/') ∈ pyStripWs s := IPv4Network.parse_mem_slash _ _ hp
    have hsplit : splitOnChar (',') s = [s] := splitOnChar_of_not_contains _ _ hnc
    have hnotover : ¬ num_addresses n > MAX_IPS_ALLOWED := by omega
    have hhosts : IPv4Network.hostsList addr n
        = List.range' (network_address addr n + 1) (num_addresses n - 2) := by
      unfold IPv4Network.hostsList
      simp only [show n ≤ 30 by omega, if_true]
    have hpe : parse_entry s [] (pyStripWs s)
        = Except.ok (List.range' (network_address addr n + 1) (num_addresses n - 2)) := by
      unfold parse_entry
      rw [if_pos hslash]
      simp only [hp]
      rw [if_neg hnotover, hhosts]
      rfl
    have hlenle : ¬ (List.range' (network_address addr n + 1)
        (num_addresses n - 2)).length > MAX_IPS_ALLOWED := by
      rw [List.length_range']
      omega
    unfold parse_ip_input
    rw [hsplit]
    show parse_ip_input_loop s [] [pyStripWs s] = _
    unfold parse_ip_input_loop
    simp only [hpe]
    rw [if_neg hlenle]
    rfl
  · intro x
    rw [List.mem_range'_1]
    omega

/-- Witness for C5: parsing 192.168.0.0/30 yields exactly 192.168.0.1 and
192.168.0.2, and an address with host bits set (192.168.0.2/30) is accepted
and masked to the same network. -/
theorem parse_cidr_hosts_witness :
    parse_ip_input ("192.168.0.0/30".toList) = Except.ok [3232235521, 3232235522] ∧
    [3232235521, 3232235522].map ipv4ToString
      = [("192.168.0.1".toList), ("192.168.0.2".toList)] ∧
    parse_ip_input ("192.168.0.2/30".toList) = Except.ok [3232235521, 3232235522] := by
  have h1 := (parse_cidr_hosts ("192.168.0.0/30".toList) 3232235520 30
    (by decide) (by decide) (by decide) (by decide)).1
  have h2 := (parse_cidr_hosts ("192.168.0.2/30".toList) 3232235522 30
    (by decide) (by decide) (by decide) (by decide)).1
  refine ⟨?_, rfl, ?_⟩
  · rw [h1]; rfl
  · rw [h2]; rfl

/-! ## MAC vendor lookup (src/src/lanscape/libraries/mac_lookup.py) -/

/-- lookup_mac: for a truthy MAC string, return the vendor of the first
database key that is a prefix of the uppercased MAC (keys compared
uppercased); None when nothing matches or the MAC is falsy.  The database is
an association list in dict iteration order. -/
def lookup_mac (db : List (PyStr × PyStr)) (mac : PyStr) : Option PyStr :=
  if mac = [] then none
  else db.findSome? (fun kv =>
    if (pyUpper kv.1).isPrefixOf (pyUpper mac) then some kv.2 else none)

/-- Vendor of the longest matching OUI prefix, as the spec words it: among
the entries whose uppercased key prefixes the uppercased MAC, the one with
the longest key (first on ties), or None when no prefix matches. -/
def spec_longest_prefix_vendor (db : List (PyStr × PyStr)) (mac : PyStr) : Option PyStr :=
  (pickFirstMax (fun kv => kv.1.length)
    (db.filter (fun kv => (pyUpper kv.1).isPrefixOf (pyUpper mac)))).map
    (fun kv => kv.2)

theorem isPrefixOf_nil_eq_false {l : List Char} (h : l ≠ []) :
    l.isPrefixOf ([] : List Char) = false := by
  cases l with
  | nil => exact absurd rfl h
  | cons c t => rfl

/-- Claim C9: when every database key has one and the same positive length
(the MAC-vendor dataset is keyed by three-octet OUI prefixes, all eight
characters), lookup_mac returns exactly the vendor of the longest matching
OUI prefix of the uppercased MAC, and None when no prefix matches.
Modelled from the spec: the dataset file mac_db.json is not part of the
sources; the spec describes it as a map from OUI prefixes AA:BB:CC to vendor
names, which fixes the uniform key length. -/
theorem lookup_mac_longest_oui (db : List (PyStr × PyStr)) (mac : PyStr) (L : Nat)
    (hL : 0 < L) (hkeys : ∀ kv ∈ db, kv.1.length = L) :
    lookup_mac db mac = spec_longest_prefix_vendor db mac := by
  by_cases hmac : mac = []
  · subst hmac
    unfold lookup_mac spec_longest_prefix_vendor
    rw [if_pos rfl]
    have hfilter : db.filter (fun kv => (pyUpper kv.1).isPrefixOf (pyUpper ([] : PyStr))) = [] := by
      rw [List.filter_eq_nil_iff]
      intro kv hkv
      have hlen : kv.1.length = L := hkeys kv hkv
      have hne : pyUpper kv.1 ≠ [] := by
        intro hc
        have h0 := congrArg List.length hc
        simp only [pyUpper, List.length_map, List.length_nil] at h0
        omega
      intro hc
      rw [List.isPrefixOf_iff_prefix] at hc
      have hnil : pyUpper kv.1 <+: ([] : List Char) := by simpa [pyUpper] using hc
      exact hne (List.prefix_nil.mp hnil)
    rw [hfilter]
    rfl
  · unfold lookup_mac spec_longest_prefix_vendor
    rw [if_neg hmac]
    induction db with
    | nil => rfl
    | cons kv rest ih =>
      by_cases hpre : (pyUpper kv.1).isPrefixOf (pyUpper mac)
      · rw [List.findSome?_cons]
        simp only [hpre, if_true]
        rw [List.filter_cons_of_pos (by simpa using hpre)]
        rw [pickFirstMax_cons]
        have hstay : (rest.filter (fun x => (pyUpper x.1).isPrefixOf (pyUpper mac))).foldl
            (fun y x => if x.1.length > y.1.length then x else y) kv = kv := by
          refine foldl_max_stay (fun x : PyStr × PyStr => x.1.length) _ kv ?_
          intro x hx
          have hx1 : x ∈ rest := List.mem_of_mem_filter hx
          show x.1.length ≤ kv.1.length
          rw [hkeys x (by simp [hx1]), hkeys kv (by simp)]
        rw [hstay]
        rfl
      · rw [List.findSome?_cons]
        simp only [hpre, if_false]
        rw [List.filter_cons_of_neg (by simpa using hpre)]
        exact ih (fun x hx => hkeys x (by simp [List.mem_cons, hx]))

/-- Sample OUI database for the witness. -/
def sampleMacDb : List (PyStr × PyStr) :=
  [(("00:1A:2B".toList), ("Acme Networks".toList)),
   (("F4:5C:89".toList), ("Fruit Computer".toList))]

/-- Witness for C9: the second OUI matches a lowercase MAC and is returned;
an unmatched MAC gives None. -/
theorem lookup_mac_longest_oui_witness :
    lookup_mac sampleMacDb ("f4:5c:89:aa:bb:cc".toList)
      = spec_longest_prefix_vendor sampleMacDb ("f4:5c:89:aa:bb:cc".toList) ∧
    lookup_mac sampleMacDb ("f4:5c:89:aa:bb:cc".toList) = some ("Fruit Computer".toList) ∧
    lookup_mac sampleMacDb ("99:99:99:99:99:99".toList) = none := by
  refine ⟨lookup_mac_longest_oui sampleMacDb _ 8 (by decide) ?_, rfl, rfl⟩
  intro kv hkv
  fin_cases hkv <;> rfl

/-! ## Service identification (src/lanscape/core/service_scan.py) -/

/-- Python membership test needle in haystack for strings and bytes:
contiguous substring containment. -/
def pyIn {α : Type} [DecidableEq α] (needle haystack : List α) : Bool :=
  decide (needle <:+: haystack)

/-- ASCII byte values of a literal, for binary signature patterns. -/
def bytesOfAscii (s : String) : PyBytes := s.toList.map Char.toNat

/-- Binary protocol signature table: (service name, byte pattern, weight),
in source order. -/
def BINARY_SIGNATURES : List (PyStr × PyBytes × Nat) :=
  [(("TLS".toList), [0x15, 0x03], 50),
   (("TLS".toList), [0x16, 0x03], 50),
   (("SMB".toList), 0xff :: bytesOfAscii ("SMB"), 60),
   (("SMB".toList), 0xfe :: bytesOfAscii ("SMB"), 60),
   (("NetBIOS".toList), [0x83, 0x00, 0x00, 0x01], 55),
   (("NetBIOS".toList), [0x82, 0x00, 0x00, 0x00], 55),
   (("RDP".toList), [0x03, 0x00, 0x00], 55),
   (("RDP".toList), [0x03, 0x00], 50),
   (("RPC".toList), [0x05, 0x00], 45),
   (("MySQL".toList), [0x00, 0x00, 0x00, 0x0a], 40),
   (("PostgreSQL".toList), bytesOfAscii ("SFATAL"), 40),
   (("PostgreSQL".toList), bytesOfAscii ("SERROR"), 40),
   (("PostgreSQL".toList), bytesOfAscii ("E"), 35),
   (("Redis".toList), bytesOfAscii ("+PONG"), 40),
   (("Redis".toList), bytesOfAscii ("-ERR"), 30),
   (("Redis".toList), bytesOfAscii ("-NOAUTH"), 45),
   (("MongoDB".toList), bytesOfAscii ("ismaster"), 40),
   (("SSH".toList), bytesOfAscii ("SSH-"), 50),
   (("VNC".toList), bytesOfAscii ("RFB "), 55),
   (("DNS".toList), [0x00, 0x00, 0x81, 0x80], 40),
   (("DNS".toList), [0x00, 0x00, 0x81, 0x83], 40),
   (("SOCKS5".toList), [0x05, 0x00], 55),
   (("SOCKS5".toList), [0x05, 0xff], 55),
   (("SOCKS5".toList), [0x05, 0x02], 55),
   (("RTMP".toList), [0x03, 0x00, 0x00, 0x00], 50),
   (("SunRPC".toList), [0x00, 0x00, 0x00, 0x1c], 45),
   (("SunRPC".toList), [0x80, 0x00], 40),
   (("MQTT".toList), [0x20, 0x02], 55),
   (("MQTT".toList), [0x10], 35),
   (("LPD".toList), [0x00], 25),
   (("IPP".toList), [0x01, 0x01], 40)]

/-- Text pattern matcher with weighted priority. -/
structure ServiceMatcher where
  name : PyStr
  weight : Nat
  patterns : List PyStr
  case_sensitive : Bool

/-- ServiceMatcher.match: does any pattern occur in the response, lowering
both sides unless the matcher is case sensitive. -/
def ServiceMatcher.match_resp (m : ServiceMatcher) (response : PyStr) : Bool :=
  let check_response := if m.case_sensitive then response else pyLower response
  m.patterns.any (fun pattern =>
    let check_pattern := if m.case_sensitive then pattern else pyLower pattern
    pyIn check_pattern check_response)

/-- Build a matcher with the default case_sensitive=False, as every entry of
the source table is. -/
def mkMatcher (name : String) (weight : Nat) (patterns : List String) : ServiceMatcher :=
  ⟨name.toList, weight, patterns.map String.toList, false⟩

/-- SERVICE_MATCHERS table in source order. -/
def SERVICE_MATCHERS : List ServiceMatcher :=
  [mkMatcher ("WebSocket") 100 ["websocket", "upgrade: websocket", "sec-websocket", "ws://"],
   mkMatcher ("gRPC") 90 ["grpc", "application/grpc", "PRI * HTTP/2"],
   mkMatcher ("HTTPS") 80 ["https", "ssl", "tls", "certificate"],
   mkMatcher ("REST API") 70 ["application/json", "\"api\"", "\"version\"", "\"status\""],
   mkMatcher ("HTTP") 50 ["http/1.", "http/2", "apache", "nginx", "iis", "lighttpd",
     "gunicorn", "caddy", "cloudflare", "server:", "content-type:"],
   mkMatcher ("Redis") 60 ["+pong", "redis"],
   mkMatcher ("MongoDB") 60 ["mongodb", "ismaster"],
   mkMatcher ("MySQL") 60 ["mysql", "mariadb"],
   mkMatcher ("PostgreSQL") 55 ["postgresql", "postgres", "fatal:", "psql"],
   mkMatcher ("SSH") 70 ["ssh-", "openssh", "dropbear"],
   mkMatcher ("Telnet") 40 ["telnet", "login:"],
   mkMatcher ("SMTP") 60 ["smtp", "220 ", "postfix", "exim"],
   mkMatcher ("IMAP") 60 ["imap", "* ok"],
   mkMatcher ("POP3") 60 ["+ok", "pop3"],
   mkMatcher ("FTP") 60 ["ftp", "220-", "vsftpd", "filezilla"],
   mkMatcher ("MQTT") 60 ["mqtt"],
   mkMatcher ("AMQP") 60 ["amqp", "rabbitmq"],
   mkMatcher ("Minecraft") 70 ["minecraft"],
   mkMatcher ("DNS") 40 ["dns", "bind", "named"],
   mkMatcher ("SMB") 65 ["smb", "samba", "netbios", "cifs"],
   mkMatcher ("RDP") 65 ["rdp", "remote desktop", "terminal service", "ms-wbt-server"],
   mkMatcher ("RPC") 55 ["rpc", "dcerpc", "endpoint mapper"],
   mkMatcher ("WinRM") 60 ["wsman", "winrm", "windows remote"],
   mkMatcher ("WSDAPI") 55 ["wsdapi", "microsoft-httpapi", "web services"],
   mkMatcher ("LDAP") 60 ["ldap", "active directory"],
   mkMatcher ("AirTunes") 65 ["airtunes", "airplay"],
   mkMatcher ("mDNS") 50 ["mdns", "bonjour", "_tcp.local"],
   mkMatcher ("UPnP") 50 ["upnp", "ssdp", "igd:"],
   mkMatcher ("Plex") 65 ["plex", "x-plex"],
   mkMatcher ("HomeAssistant") 65 ["home assistant", "hass"],
   mkMatcher ("VNC") 60 ["rfb ", "vnc", "tightvnc", "realvnc"],
   mkMatcher ("RTSP") 55 ["rtsp/", "real time streaming"],
   mkMatcher ("RTMP") 55 ["rtmp", "flash media", "fms/"],
   mkMatcher ("Elasticsearch") 60 ["elasticsearch", "lucene"],
   mkMatcher ("Memcached") 55 ["memcached", "stat "],
   mkMatcher ("SOCKS5") 60 ["socks", "socks5"],
   mkMatcher ("Squid") 55 ["squid", "proxy"],
   mkMatcher ("SunRPC") 50 ["portmapper", "rpcbind", "nfs"],
   mkMatcher ("NFS") 55 ["nfs", "mount"],
   mkMatcher ("Printer") 55 ["printer", "jetdirect", "cups", "lpd"],
   mkMatcher ("IPP") 55 ["ipp", "internet printing"],
   mkMatcher ("GoogleCast") 60 ["chromecast", "google cast", "eureka"],
   mkMatcher ("SpotifyConnect") 60 ["spotify", "spotifyconnect"],
   mkMatcher ("Roku") 60 ["roku"],
   mkMatcher ("Sonos") 60 ["sonos"]]

/-- _match_binary_signature: first table entry whose byte pattern occurs in
the data, or None for empty data or no hit. -/
def _match_binary_signature (data : PyBytes) : Option (PyStr × Nat) :=
  if data = [] then none
  else BINARY_SIGNATURES.findSome? (fun sig =>
    if pyIn sig.2.1 data then some (sig.1, sig.2.2) else none)

/-- Legacy SERVICES catalog restricted to what _identify_service reads: each
service name with its hint strings.  The catalog is loaded from the
definitions.jsonc resource, which is not part of the sources, so it stays a
parameter. -/
abbrev HintsTable : Type := List (PyStr × List PyStr)

/-- Legacy fallback scan of the SERVICES hints: first service one of whose
hints occurs in the lowered response, at weight 30. -/
def legacy_hints_lookup (hints : HintsTable) (response : PyStr) : Option (PyStr × Nat) :=
  hints.findSome? (fun sc =>
    if sc.2.any (fun hint => pyIn (pyLower hint) (pyLower response)) then
      some (sc.1, 30)
    else none)

/-- Initial best of _identify_service: Unknown/0, or the HTTPS/80 seed when
TLS was detected. -/
def _identify_best0 (is_tls : Bool) : PyStr × Nat :=
  if is_tls then (("HTTPS".toList), 80) else (("Unknown".toList), 0)

/-- Binary signature step of _identify_service: when the response bytes are
truthy and the first matching signature beats the current best weight
strictly, take it. -/
def _identify_best1 (response_bytes : PyBytes) (b0 : PyStr × Nat) : PyStr × Nat :=
  if response_bytes ≠ [] then
    match _match_binary_signature response_bytes with
    | some r => if r.2 > b0.2 then r else b0
    | none => b0
  else b0

/-- Text matcher loop of _identify_service: fold over the matcher table,
replacing the best on a match with strictly greater weight. -/
def _identify_best2 (response : PyStr) (b1 : PyStr × Nat) : PyStr × Nat :=
  SERVICE_MATCHERS.foldl
    (fun b m =>
      if m.match_resp response = true ∧ m.weight > b.2 then (m.name, m.weight) else b)
    b1

/-- _identify_service: start from Unknown/0, seeded to HTTPS/80 when TLS was
detected; fold in the first binary signature hit when response bytes are
truthy, then every text matcher, each replacing the best only on a strictly
greater weight; when the best weight is still 0 and the response is truthy,
fall back to the legacy hints at weight 30 (this last step). -/
def _identify_fallback (hints : HintsTable) (response : PyStr)
    (best2 : PyStr × Nat) : PyStr × Nat :=
  if best2.2 = 0 ∧ response ≠ [] then
    match legacy_hints_lookup hints response with
    | some r => r
    | none => best2
  else best2

/-- Composition of the identification stages. -/
def _identify_service (hints : HintsTable) (response : PyStr)
    (response_bytes : PyBytes) (is_tls : Bool) : PyStr × Nat :=
  _identify_fallback hints response
    (_identify_best2 response (_identify_best1 response_bytes (_identify_best0 is_tls)))

/-- Candidate pairs of the specification reading of service identification:
the HTTPS/80 seed when TLS was detected, the first matching binary
signature, and every matching text matcher, in table order. -/
def spec_candidates (response : PyStr) (response_bytes : PyBytes)
    (is_tls : Bool) : List (PyStr × Nat) :=
  (if is_tls then [(("HTTPS".toList), 80)] else [])
  ++ (match _match_binary_signature response_bytes with
      | some r => [r]
      | none => [])
  ++ (SERVICE_MATCHERS.filter (fun m => m.match_resp response)).map
      (fun m => (m.name, m.weight))

/-- Specification reading of _identify_service: the first candidate of
maximal weight; with no candidate at all, the legacy hints fallback at
weight 30 (for a truthy response), else Unknown/0. -/
def spec_identify_service (hints : HintsTable) (response : PyStr)
    (response_bytes : PyBytes) (is_tls : Bool) : PyStr × Nat :=
  match pickFirstMax (fun c => c.2) (spec_candidates response response_bytes is_tls) with
  | some best => best
  | none =>
    if response ≠ [] then
      match legacy_hints_lookup hints response with
      | some r => r
      | none => (("Unknown".toList), 0)
    else (("Unknown".toList), 0)

theorem BINARY_SIGNATURES_weight_pos : ∀ a ∈ BINARY_SIGNATURES, 0 < a.2.2 := by
  decide

theorem SERVICE_MATCHERS_weight_pos : ∀ m ∈ SERVICE_MATCHERS, 0 < m.weight := by
  decide

theorem bin_sig_weight_pos (data : PyBytes) (r : PyStr × Nat)
    (h : _match_binary_signature data = some r) : 0 < r.2 := by
  unfold _match_binary_signature at h
  by_cases hd : data = []
  · rw [if_pos hd] at h
    exact absurd h (by simp)
  · rw [if_neg hd] at h
    obtain ⟨a, ha, hfa⟩ := List.exists_of_findSome?_eq_some h
    by_cases hin : pyIn a.2.1 data = true
    · rw [if_pos hin] at hfa
      have hr : r = (a.1, a.2.2) := by
        injection hfa with hfa'
        exact hfa'.symm
      rw [hr]
      exact BINARY_SIGNATURES_weight_pos a ha
    · rw [if_neg hin] at hfa
      exact absurd hfa (by simp)

theorem matcher_fold_eq (response : PyStr) :
    ∀ (l : List ServiceMatcher) (b : PyStr × Nat),
    l.foldl
      (fun b m =>
        if m.match_resp response = true ∧ m.weight > b.2 then (m.name, m.weight) else b)
      b
    = ((l.filter (fun m => m.match_resp response)).map (fun m => (m.name, m.weight))).foldl
        (fun y x => if x.2 > y.2 then x else y) b := by
  intro l
  induction l with
  | nil => intro b; rfl
  | cons m rest ih =>
    intro b
    by_cases hm : m.match_resp response = true
    · rw [List.foldl_cons, List.filter_cons_of_pos (by simpa using hm),
        List.map_cons, List.foldl_cons]
      by_cases hw : m.weight > b.2
      · rw [if_pos ⟨hm, hw⟩, if_pos (by simpa using hw)]
        exact ih _
      · rw [if_neg (by tauto), if_neg (by simpa using hw)]
        exact ih _
    · rw [List.foldl_cons, List.filter_cons_of_neg (by simpa using hm)]
      rw [if_neg (by tauto)]
      exact ih b

theorem bin_fold_eq (response_bytes : PyBytes) (b0 : PyStr × Nat) :
    _identify_best1 response_bytes b0
    = (match _match_binary_signature response_bytes with
       | some r => [r]
       | none => ([] : List (PyStr × Nat))).foldl
        (fun (y x : PyStr × Nat) => if x.2 > y.2 then x else y) b0 := by
  unfold _identify_best1
  by_cases hrb : response_bytes = []
  · subst hrb
    rfl
  · rw [if_pos hrb]
    cases h : _match_binary_signature response_bytes with
    | none => rfl
    | some r => rfl

theorem seed_fold_eq (is_tls : Bool) :
    _identify_best0 is_tls
    = (if is_tls then [((("HTTPS".toList) : PyStr), 80)] else []).foldl
        (fun y x => if x.2 > y.2 then x else y) (("Unknown".toList), 0) := by
  cases is_tls <;> rfl

theorem foldl_step_first_max {α : Type} (score : α → Nat) (l : List α) (b : α)
    (h : ∀ c ∈ l, score b < score c) :
    l.foldl (fun y x => if score x > score y then x else y) b
    = (pickFirstMax score l).getD b := by
  cases l with
  | nil => rfl
  | cons c rest =>
    rw [List.foldl_cons, pickFirstMax_cons]
    rw [if_pos (h c (by simp))]
    rfl

theorem foldl_step_mem {α : Type} (score : α → Nat) :
    ∀ (l : List α) (b : α),
    l.foldl (fun y x => if score x > score y then x else y) b ∈ b :: l := by
  intro l
  induction l with
  | nil => intro b; simp
  | cons c rest ih =>
    intro b
    rw [List.foldl_cons]
    have hmem := ih (if score c > score b then c else b)
    rcases List.mem_cons.mp hmem with h1 | h2
    · rw [h1]
      by_cases hc : score c > score b
      · rw [if_pos hc]
        simp
      · rw [if_neg hc]
        simp
    · simp [h2]

theorem spec_candidates_pos (response : PyStr) (response_bytes : PyBytes)
    (is_tls : Bool) :
    ∀ x ∈ spec_candidates response response_bytes is_tls, 0 < x.2 := by
  intro x hx
  unfold spec_candidates at hx
  rcases List.mem_append.mp hx with h12 | h3
  · rcases List.mem_append.mp h12 with h1 | h2
    · cases is_tls with
      | false => simp at h1
      | true =>
        simp only [if_true] at h1
        rw [List.mem_singleton] at h1
        rw [h1]
        decide
    · cases hmb : _match_binary_signature response_bytes with
      | none =>
        rw [hmb] at h2
        simp at h2
      | some r =>
        rw [hmb] at h2
        rw [List.mem_singleton] at h2
        rw [h2]
        exact bin_sig_weight_pos _ _ hmb
  · obtain ⟨m, hm, hmx⟩ := List.mem_map.mp h3
    have hw := SERVICE_MATCHERS_weight_pos m (List.mem_of_mem_filter hm)
    rw [← hmx]
    exact hw

/-- Claim C3: for every response string, raw byte string and TLS flag (and
any legacy hints table), _identify_service returns exactly the first
maximal-weight pair among the HTTPS/80 TLS seed, the first matching binary
signature, and every matching text matcher, in table order; the legacy hints
fallback at weight 30 fires only when no candidate matched at all, and with
no match whatsoever the result is Unknown/0. -/
theorem identify_service_argmax (hints : HintsTable) (response : PyStr)
    (response_bytes : PyBytes) (is_tls : Bool) :
    _identify_service hints response response_bytes is_tls
      = spec_identify_service hints response response_bytes is_tls := by
  have hpos := spec_candidates_pos response response_bytes is_tls
  have hbase : _identify_best2 response (_identify_best1 response_bytes (_identify_best0 is_tls))
      = (spec_candidates response response_bytes is_tls).foldl
          (fun (y x : PyStr × Nat) => if x.2 > y.2 then x else y)
          ((("Unknown".toList) : PyStr), 0) := by
    unfold _identify_best2 spec_candidates
    rw [matcher_fold_eq response SERVICE_MATCHERS]
    rw [bin_fold_eq response_bytes]
    rw [seed_fold_eq is_tls]
    rw [List.foldl_append, List.foldl_append]
  unfold _identify_service spec_identify_service
  rw [hbase]
  cases hc : spec_candidates response response_bytes is_tls with
  | nil =>
    simp only [List.foldl_nil]
    unfold _identify_fallback
    by_cases hresp : response = []
    · rw [if_neg (by simp [hresp])]
      simp only [pickFirstMax, List.foldl_nil]
      rw [if_neg (by simp [hresp])]
    · rw [if_pos ⟨rfl, hresp⟩]
      simp only [pickFirstMax, List.foldl_nil]
      rw [if_pos hresp]
  | cons c rest =>
    have hbaselt : ∀ x ∈ c :: rest, ((("Unknown".toList) : PyStr), 0).2 < x.2 := by
      intro x hx
      exact hpos x (by rw [hc]; exact hx)
    have heq := foldl_step_first_max (fun p : PyStr × Nat => p.2) (c :: rest)
      ((("Unknown".toList) : PyStr), 0) hbaselt
    rw [heq, pickFirstMax_cons]
    simp only [Option.getD_some]
    have hmem := foldl_step_mem (fun p : PyStr × Nat => p.2) rest c
    have hm2 : 0 < (rest.foldl
        (fun y x => if x.2 > y.2 then x else y) c).2 := hbaselt _ hmem
    unfold _identify_fallback
    rw [if_neg (by intro hcon; omega)]

/-! ## Response cleaning (src/lanscape/core/service_scan.py, _clean_response) -/

/-- Maximum length for stored responses. -/
def MAX_RESPONSE_LENGTH : Nat := 512

/-- The newline, carriage return and tab characters kept verbatim by
_clean_response. -/
def nrtList : PyStr := [('\n'), ('\r'), ('\t')]

/-- Lowercase hexadecimal digit of a value below 16. -/
def pyHexDigit (n : Nat) : Char :=
  if n < 10 then Char.ofNat (48 + n) else Char.ofNat (97 + (n - 10))

/-- Hexadecimal digit string (8 digits of fuel cover every Unicode scalar
value). -/
def toHexAux : Nat → Nat → PyStr
  | 0, _ => []
  | fuel + 1, n =>
    if n < 16 then [pyHexDigit n]
    else toHexAux fuel (n / 16) ++ [pyHexDigit (n % 16)]

/-- Python format string backslash-x-02x applied to a character code:
backslash, x, and the zero-padded lowercase hex digits. -/
def pyHexEscape (c : Char) : PyStr :=
  let h := toHexAux 8 c.toNat
  ('\\') :: ('x') :: (if h.length < 2 then ('0') :: h else h)

/-- Every character an escape sequence can contain, plus nothing else. -/
def escapeChars : PyStr :=
  [('\\'), ('x'), ('0'), ('1'), ('2'), ('3'), ('4'), ('5'), ('6'), ('7'),
   ('8'), ('9'), ('a'), ('b'), ('c'), ('d'), ('e'), ('f')]

/-- Character kept verbatim by the escaping pass. -/
def keptChar (k : PyCharKind) (c : Char) : Prop :=
  k.printable c = true ∨ c ∈ nrtList

instance (k : PyCharKind) (c : Char) : Decidable (keptChar k c) := by
  unfold keptChar
  infer_instance

/-- Escaping pass of _clean_response: keep printable characters and
newline, carriage return, tab; replace every other character by its hex
escape. -/
def escapeMap (k : PyCharKind) : PyStr → PyStr
  | [] => []
  | c :: rest =>
    (if keptChar k c then [c] else pyHexEscape c) ++ escapeMap k rest

/-- _clean_response: empty (falsy) input gives the empty string; otherwise
strip, escape non-printable characters, and truncate to
MAX_RESPONSE_LENGTH characters plus a three-dot marker. -/
def _clean_response (k : PyCharKind) (response : PyStr) : PyStr :=
  if response = [] then []
  else if (escapeMap k (pyStrip k response)).length > MAX_RESPONSE_LENGTH then
    (escapeMap k (pyStrip k response)).take MAX_RESPONSE_LENGTH ++ [('.'), ('.'), ('.')]
  else escapeMap k (pyStrip k response)

theorem pyHexDigit_mem_escapeChars : ∀ n, n < 16 → pyHexDigit n ∈ escapeChars := by
  decide

theorem toHexAux_mem_escapeChars :
    ∀ fuel n c, c ∈ toHexAux fuel n → c ∈ escapeChars := by
  intro fuel
  induction fuel with
  | zero => intro n c hc; simp [toHexAux] at hc
  | succ f ih =>
    intro n c hc
    simp only [toHexAux] at hc
    by_cases hn : n < 16
    · rw [if_pos hn] at hc
      rw [List.mem_singleton] at hc
      rw [hc]
      exact pyHexDigit_mem_escapeChars n hn
    · rw [if_neg hn] at hc
      rcases List.mem_append.mp hc with h | h
      · exact ih _ _ h
      · rw [List.mem_singleton] at h
        rw [h]
        exact pyHexDigit_mem_escapeChars _ (Nat.mod_lt _ (by omega))

theorem pyHexEscape_mem_escapeChars (c c' : Char) (h : c' ∈ pyHexEscape c) :
    c' ∈ escapeChars := by
  simp only [pyHexEscape, List.mem_cons] at h
  rcases h with h | h | h
  · rw [h]; decide
  · rw [h]; decide
  · by_cases hl : (toHexAux 8 c.toNat).length < 2
    · rw [if_pos hl] at h
      rcases List.mem_cons.mp h with h' | h'
      · rw [h']; decide
      · exact toHexAux_mem_escapeChars _ _ _ h'
    · rw [if_neg hl] at h
      exact toHexAux_mem_escapeChars _ _ _ h

theorem pyHexEscape_ne_nil (c : Char) : pyHexEscape c ≠ [] := by
  simp [pyHexEscape]

theorem escapeMap_append (k : PyCharKind) (l1 l2 : PyStr) :
    escapeMap k (l1 ++ l2) = escapeMap k l1 ++ escapeMap k l2 := by
  induction l1 with
  | nil => rfl
  | cons c rest ih =>
    simp only [List.cons_append, escapeMap, List.append_eq, ih, List.append_assoc]

theorem escapeMap_mem (k : PyCharKind) (t : PyStr) (c : Char)
    (hc : c ∈ escapeMap k t) :
    (∃ c0 ∈ t, keptChar k c0 ∧ c = c0) ∨ c ∈ escapeChars := by
  induction t with
  | nil => simp [escapeMap] at hc
  | cons a rest ih =>
    simp only [escapeMap] at hc
    rcases List.mem_append.mp hc with h | h
    · by_cases ha : keptChar k a
      · rw [if_pos ha] at h
        rw [List.mem_singleton] at h
        exact Or.inl ⟨a, by simp, ha, h⟩
      · rw [if_neg ha] at h
        exact Or.inr (pyHexEscape_mem_escapeChars a c h)
    · rcases ih h with ⟨c0, hc0, hk, he⟩ | hr
      · exact Or.inl ⟨c0, by simp [hc0], hk, he⟩
      · exact Or.inr hr

theorem escapeMap_id_of_kept (k : PyCharKind) (u : PyStr)
    (h : ∀ c ∈ u, keptChar k c) : escapeMap k u = u := by
  induction u with
  | nil => rfl
  | cons c rest ih =>
    simp only [escapeMap]
    rw [if_pos (h c (by simp))]
    rw [ih (fun x hx => h x (by simp [hx]))]
    rfl

theorem head?_mem_list {α : Type} (l : List α) (a : α) (h : l.head? = some a) : a ∈ l := by
  cases l with
  | nil => simp at h
  | cons c t =>
    simp only [List.head?_cons, Option.some.injEq] at h
    simp [← h]

theorem getLast?_mem_list {α : Type} (l : List α) (a : α) (h : l.getLast? = some a) :
    a ∈ l := by
  have hrev : l.reverse.head? = some a := by rw [List.head?_reverse]; exact h
  have := head?_mem_list l.reverse a hrev
  simpa using this

theorem dropWhile_head?_false (p : Char → Bool) (l : PyStr) (c : Char)
    (h : (l.dropWhile p).head? = some c) : p c = false := by
  induction l with
  | nil => simp [List.dropWhile] at h
  | cons a t ih =>
    rw [List.dropWhile_cons] at h
    by_cases hp : p a = true
    · rw [if_pos hp] at h
      exact ih h
    · rw [if_neg hp] at h
      simp only [List.head?_cons, Option.some.injEq] at h
      rw [← h]
      exact Bool.eq_false_iff.mpr hp

theorem dropWhile_eq_self_of_head (p : Char → Bool) (l : PyStr)
    (h : ∀ c, l.head? = some c → p c = false) : l.dropWhile p = l := by
  cases l with
  | nil => rfl
  | cons a t =>
    rw [List.dropWhile_cons]
    rw [if_neg (by rw [h a rfl]; simp)]

theorem getLast?_cons_ne {α : Type} (a : α) (t : List α) (h : t ≠ []) :
    (a :: t).getLast? = t.getLast? := by
  cases t with
  | nil => exact absurd rfl h
  | cons b u => exact List.getLast?_cons_cons

theorem getLast?_append_right {α : Type} (l1 l2 : List α) (h : l2 ≠ []) :
    (l1 ++ l2).getLast? = l2.getLast? := by
  induction l1 with
  | nil => rfl
  | cons a t ih =>
    rw [List.cons_append]
    have htl : t ++ l2 ≠ [] := by
      intro hc
      exact h (List.append_eq_nil.mp hc).2
    rw [getLast?_cons_ne a _ htl]
    exact ih

theorem getLast?_dropWhile (p : Char → Bool) (l : PyStr)
    (h : l.dropWhile p ≠ []) : (l.dropWhile p).getLast? = l.getLast? := by
  induction l with
  | nil => simp [List.dropWhile] at h
  | cons a t ih =>
    rw [List.dropWhile_cons] at h ⊢
    by_cases hp : p a = true
    · rw [if_pos hp] at h ⊢
      have ht : t ≠ [] := by
        intro hc
        rw [hc] at h
        simp [List.dropWhile] at h
      rw [ih h]
      exact (getLast?_cons_ne a t ht).symm
    · rw [if_neg hp]

theorem pyStrip_getLast_nospace (k : PyCharKind) (s : PyStr) (c : Char)
    (h : (pyStrip k s).getLast? = some c) : k.space c = false := by
  unfold pyStrip at h
  rw [List.getLast?_reverse] at h
  exact dropWhile_head?_false k.space _ c h

theorem pyStrip_head_nospace (k : PyCharKind) (s : PyStr) (c : Char)
    (h : (pyStrip k s).head? = some c) : k.space c = false := by
  unfold pyStrip at h
  rw [List.head?_reverse] at h
  have hne : (s.dropWhile k.space).reverse.dropWhile k.space ≠ [] := by
    intro hc
    rw [hc] at h
    simp at h
  rw [getLast?_dropWhile k.space _ hne] at h
  rw [List.getLast?_reverse] at h
  exact dropWhile_head?_false k.space _ c h

theorem pyStrip_eq_self (k : PyCharKind) (u : PyStr)
    (hh : ∀ c, u.head? = some c → k.space c = false)
    (hl : ∀ c, u.getLast? = some c → k.space c = false) :
    pyStrip k u = u := by
  unfold pyStrip
  rw [dropWhile_eq_self_of_head k.space u hh]
  rw [dropWhile_eq_self_of_head k.space u.reverse
    (fun c hc => hl c (by rw [← List.head?_reverse]; exact hc))]
  exact List.reverse_reverse u

theorem escapeMap_all_kept (k : PyCharKind)
    (h2 : ∀ c ∈ escapeChars, k.printable c = true ∧ k.space c = false)
    (t : PyStr) : ∀ c ∈ escapeMap k t, keptChar k c := by
  intro c hc
  rcases escapeMap_mem k t c hc with ⟨c0, _, hk, he⟩ | hr
  · rw [he]
    exact hk
  · exact Or.inl (h2 c hr).1

theorem escapeMap_head_nospace (k : PyCharKind)
    (h2 : ∀ c ∈ escapeChars, k.printable c = true ∧ k.space c = false)
    (t : PyStr) (hts : ∀ c, t.head? = some c → k.space c = false) :
    ∀ c, (escapeMap k t).head? = some c → k.space c = false := by
  intro c hc
  cases t with
  | nil => simp [escapeMap] at hc
  | cons a rest =>
    simp only [escapeMap] at hc
    by_cases ha : keptChar k a
    · rw [if_pos ha] at hc
      simp only [List.cons_append, List.head?_cons, Option.some.injEq] at hc
      rw [← hc]
      exact hts a rfl
    · rw [if_neg ha] at hc
      rw [show pyHexEscape a = ('\\') :: ('x') ::
        (if (toHexAux 8 a.toNat).length < 2 then ('0') :: toHexAux 8 a.toNat
         else toHexAux 8 a.toNat) from rfl] at hc
      simp only [List.cons_append, List.head?_cons, Option.some.injEq] at hc
      rw [← hc]
      exact (h2 ('\\') (by decide)).2

theorem escapeMap_getLast_nospace (k : PyCharKind)
    (h2 : ∀ c ∈ escapeChars, k.printable c = true ∧ k.space c = false)
    (t : PyStr) (hts : ∀ c, t.getLast? = some c → k.space c = false) :
    ∀ c, (escapeMap k t).getLast? = some c → k.space c = false := by
  intro c hc
  rcases List.eq_nil_or_concat t with rfl | ⟨init, a, rfl⟩
  · simp [escapeMap] at hc
  · rw [List.concat_eq_append] at hc hts
    rw [escapeMap_append] at hc
    have hlast : escapeMap k [a] = (if keptChar k a then [a] else pyHexEscape a) := by
      simp [escapeMap]
    by_cases ha : keptChar k a
    · rw [hlast, if_pos ha] at hc
      rw [getLast?_append_right _ _ (by simp)] at hc
      simp only [List.getLast?_singleton, Option.some.injEq] at hc
      rw [← hc]
      exact hts a (List.getLast?_concat init)
    · rw [hlast, if_neg ha] at hc
      rw [getLast?_append_right _ _ (pyHexEscape_ne_nil a)] at hc
      have hmem := getLast?_mem_list _ _ hc
      exact (h2 c (pyHexEscape_mem_escapeChars a c hmem)).2


/-- Claim C6 (amended): _clean_response is idempotent, and its output is
bounded by MAX_RESPONSE_LENGTH + 3 = 515 characters: at most 512 characters
of cleaned content plus the three-character truncation marker.  The
hypotheses record facts of the Python character classification: every
character of a hex escape, and the dot, is printable and not whitespace. -/
theorem clean_response_idempotent_bounded (k : PyCharKind)
    (h2 : ∀ c ∈ escapeChars, k.printable c = true ∧ k.space c = false)
    (h3 : k.printable ('.') = true ∧ k.space ('.') = false) (s : PyStr) :
    _clean_response k (_clean_response k s) = _clean_response k s ∧
    (_clean_response k s).length ≤ MAX_RESPONSE_LENGTH + 3 := by
  by_cases hs : s = []
  · subst hs
    exact ⟨rfl, by simp [_clean_response]⟩
  · have hcs : _clean_response k s =
        (if (escapeMap k (pyStrip k s)).length > MAX_RESPONSE_LENGTH then
          (escapeMap k (pyStrip k s)).take MAX_RESPONSE_LENGTH ++ [('.'), ('.'), ('.')]
         else escapeMap k (pyStrip k s)) := by
      unfold _clean_response
      rw [if_neg hs]
    have hukept : ∀ c ∈ escapeMap k (pyStrip k s), keptChar k c :=
      escapeMap_all_kept k h2 (pyStrip k s)
    have huhead : ∀ c, (escapeMap k (pyStrip k s)).head? = some c → k.space c = false :=
      escapeMap_head_nospace k h2 _ (fun c hc => pyStrip_head_nospace k s c hc)
    have hulast : ∀ c, (escapeMap k (pyStrip k s)).getLast? = some c → k.space c = false :=
      escapeMap_getLast_nospace k h2 _ (fun c hc => pyStrip_getLast_nospace k s c hc)
    by_cases hlen : (escapeMap k (pyStrip k s)).length > MAX_RESPONSE_LENGTH
    · have hcs2 : _clean_response k s
          = (escapeMap k (pyStrip k s)).take MAX_RESPONSE_LENGTH ++ [('.'), ('.'), ('.')] := by
        rw [hcs, if_pos hlen]
      have htake_len : ((escapeMap k (pyStrip k s)).take MAX_RESPONSE_LENGTH).length
          = MAX_RESPONSE_LENGTH := by
        rw [List.length_take]
        omega
      have hrlen : ((escapeMap k (pyStrip k s)).take MAX_RESPONSE_LENGTH
          ++ [('.'), ('.'), ('.')]).length = MAX_RESPONSE_LENGTH + 3 := by
        rw [List.length_append, htake_len]
        rfl
      rw [hcs2]
      refine ⟨?_, by rw [hrlen]⟩
      have hrne : (escapeMap k (pyStrip k s)).take MAX_RESPONSE_LENGTH
          ++ [('.'), ('.'), ('.')] ≠ [] := by
        intro hc
        exact absurd (List.append_eq_nil.mp hc).2 (by simp)
      have hrhead : ∀ c, ((escapeMap k (pyStrip k s)).take MAX_RESPONSE_LENGTH
          ++ [('.'), ('.'), ('.')]).head? = some c → k.space c = false := by
        intro c hc
        cases hu' : escapeMap k (pyStrip k s) with
        | nil =>
          rw [hu'] at hlen
          simp [MAX_RESPONSE_LENGTH] at hlen
        | cons c0 rest =>
          rw [hu'] at hc
          rw [show MAX_RESPONSE_LENGTH = 511 + 1 from rfl, List.take_succ_cons] at hc
          simp only [List.cons_append, List.head?_cons, Option.some.injEq] at hc
          rw [← hc]
          refine huhead c0 ?_
          rw [hu']
          rfl
      have hrlast : ∀ c, ((escapeMap k (pyStrip k s)).take MAX_RESPONSE_LENGTH
          ++ [('.'), ('.'), ('.')]).getLast? = some c → k.space c = false := by
        intro c hc
        rw [getLast?_append_right _ _ (by simp)] at hc
        rw [show ([('.'), ('.'), ('.')] : PyStr).getLast? = some ('.') from rfl] at hc
        have hcd : ('.') = c := Option.some.injEq ('.') c |>.mp hc
        rw [← hcd]
        exact h3.2
      have hrkept : ∀ c ∈ (escapeMap k (pyStrip k s)).take MAX_RESPONSE_LENGTH
          ++ [('.'), ('.'), ('.')], keptChar k c := by
        intro c hc
        rcases List.mem_append.mp hc with h | h
        · exact hukept c (List.take_subset _ _ h)
        · have hcd : c = ('.') := by
            simp only [List.mem_cons, List.not_mem_nil, or_false] at h
            rcases h with h | h | h <;> exact h
          rw [hcd]
          exact Or.inl h3.1
      unfold _clean_response
      rw [if_neg hrne]
      rw [pyStrip_eq_self k _ hrhead hrlast]
      rw [escapeMap_id_of_kept k _ hrkept]
      rw [if_pos (by rw [hrlen]; omega)]
      rw [List.take_left' htake_len]
    · have hcs2 : _clean_response k s = escapeMap k (pyStrip k s) := by
        rw [hcs, if_neg hlen]
      rw [hcs2]
      refine ⟨?_, by omega⟩
      by_cases hu0 : escapeMap k (pyStrip k s) = []
      · rw [hu0]
        rfl
      · unfold _clean_response
        rw [if_neg hu0]
        rw [pyStrip_eq_self k _ huhead hulast]
        rw [escapeMap_id_of_kept k _ hukept]
        rw [if_neg hlen]

set_option maxRecDepth 8000 in
/-- Claim C6 counterexample: on a 513-character printable response, the
truncation appends the three-dot marker after 512 kept characters, so the
output is 515 characters long — the claimed bound of 512 characters
including the marker is exceeded. -/
theorem clean_response_length_counterexample :
    (_clean_response asciiKind (List.replicate 513 ('a'))).length = 515 ∧
    ¬ (_clean_response asciiKind (List.replicate 513 ('a'))).length ≤ 512 := by
  exact ⟨by decide, by decide⟩

/-- Sample response with a control character for the C6 witness. -/
def demoResponse : PyStr := ("  HTTP/1.1 200 OK\r\nServer: nginx\x00  ").toList

/-- Witness for C6 (amended) at a concrete response. -/
theorem clean_response_witness :
    _clean_response asciiKind (_clean_response asciiKind demoResponse)
      = _clean_response asciiKind demoResponse ∧
    (_clean_response asciiKind demoResponse).length ≤ MAX_RESPONSE_LENGTH + 3 :=
  clean_response_idempotent_bounded asciiKind (by decide) (by decide) demoResponse

/-! ## scan_service (src/lanscape/core/service_scan.py) -/

/-- Probe strategy enum.
Modelled from the spec: the scan_config module of this fork is absent from
the source snapshot; the spec and the tests list the three strategies. -/
inductive ServiceScanStrategy where
  | LAZY
  | BASIC
  | AGGRESSIVE
deriving DecidableEq

/-- Service scan configuration.
Modelled from the spec: recognized fields are timeout, lookup_type and
max_concurrent_probes. -/
structure ServiceScanConfig where
  timeout : ℚ := 5
  lookup_type : ServiceScanStrategy := ServiceScanStrategy.BASIC
  max_concurrent_probes : Nat := 10

/-- Result of a service scan probe. -/
structure ServiceScanResult where
  service : PyStr
  response : Option PyStr
  request : Option PyStr
  probes_sent : Nat
  probes_received : Nat
  is_tls : Bool
deriving DecidableEq

/-- Result from the multi-probe operation with statistics. -/
structure ProbeResult where
  response : Option PyStr
  response_bytes : Option PyBytes
  request : Option PyStr
  probes_sent : Nat
  probes_received : Nat
  is_tls : Bool
deriving DecidableEq

/-- Ports skipped because probing them can make printers emit pages. -/
def PRINTER_PORTS : List Nat := [9100, 631]


/-- How the body of the coroutine _async_scan_service ended, when the event
loop actually ran it: the multi-probe completed with a ProbeResult, or
asyncio.TimeoutError escaped the inner try, or another exception did.
Exceptions are data here: the embedding makes every raise an explicit
outcome. -/
inductive ScanBody where
  | ok (pr : ProbeResult)
  | timeoutErr
  | exc
deriving DecidableEq

/-- Whether the event-loop management of scan_service ran the coroutine to
completion: either the coroutine ran and its body ended with some ScanBody
outcome, or the outer try failed around the event-loop machinery (loop
creation, scheduling, or the result timeout) and the coroutine never ran. -/
inductive ScanOutcome where
  | ran (body : ScanBody)
  | loopErr
deriving DecidableEq

/-- Branch of the coroutine for a probe run with no usable response: HTTPS
when TLS was detected, else Unknown, keeping the probe counters. -/
def scan_service_noresp (pr : ProbeResult) : ServiceScanResult :=
  if pr.is_tls then
    ⟨("HTTPS".toList), none, none, pr.probes_sent, pr.probes_received, true⟩
  else
    ⟨("Unknown".toList), none, none, pr.probes_sent, pr.probes_received, false⟩

/-- _async_scan_service: the coroutine body of scan_service.  Its first
statement, ahead of the try block, is the printer-port check; otherwise a
falsy response (None or empty) gives the no-response branch, a usable
response is cleaned, identified and wrapped, and a timeout or any other
exception inside the body is swallowed into Unknown with response None. -/
def _async_scan_service (k : PyCharKind) (hints : HintsTable) (port : Nat)
    (body : ScanBody) : ServiceScanResult :=
  if port ∈ PRINTER_PORTS then
    ⟨("Printer".toList), none, none, 0, 0, false⟩
  else
    match body with
    | ScanBody.ok pr =>
      match pr.response with
      | none => scan_service_noresp pr
      | some resp =>
        if resp = [] then scan_service_noresp pr
        else
          ⟨(_identify_service hints resp (pr.response_bytes.getD []) pr.is_tls).1,
           some (_clean_response k resp),
           pr.request, pr.probes_sent, pr.probes_received, pr.is_tls⟩
    | ScanBody.timeoutErr => ⟨("Unknown".toList), none, none, 0, 0, false⟩
    | ScanBody.exc => ⟨("Unknown".toList), none, none, 0, 0, false⟩

/-- scan_service: run the coroutine under the event-loop management of the
outer try.  When the event-loop machinery itself fails, the outer except
returns Unknown with no probes for every port — the coroutine, and with it
the printer-port check, never ran.  The function is total: no outcome
propagates an exception to the caller. -/
def scan_service (k : PyCharKind) (hints : HintsTable) (port : Nat)
    (cfg : ServiceScanConfig) (outcome : ScanOutcome) : ServiceScanResult :=
  match outcome with
  | ScanOutcome.ran body => _async_scan_service k hints port body
  | ScanOutcome.loopErr => ⟨("Unknown".toList), none, none, 0, 0, false⟩

/-- Claim C10 counterexample: when the event-loop machinery fails, the outer
except of scan_service returns Unknown even for printer port 9100 — the
printer short-circuit is the first statement of the coroutine, which never
ran — so the claimed unconditional printer short-circuit is false of the
program. -/
theorem scan_service_printer_counterexample :
    scan_service asciiKind [] 9100 ⟨5, ServiceScanStrategy.BASIC, 10⟩ ScanOutcome.loopErr
      = ⟨("Unknown".toList), none, none, 0, 0, false⟩ ∧
    scan_service asciiKind [] 9100 ⟨5, ServiceScanStrategy.BASIC, 10⟩ ScanOutcome.loopErr
      ≠ ⟨("Printer".toList), none, none, 0, 0, false⟩ := by
  exact ⟨rfl, by decide⟩

/-- Claim C10 (amended): scan_service is a total function of its inputs
(exceptions are explicit outcomes, none propagates).  Whenever the event
loop runs the coroutine, printer ports 9100 and 631 short-circuit to Printer
with zero probes sent and received, whatever the body would have done; an
event-loop failure yields Unknown with response None for every port,
printer ports included, since the coroutine and its printer check never
ran; a timeout or probe exception inside the coroutine of a non-printer
port yields Unknown with response None (for printer ports the body cannot
reach the try block); and a probe run whose every probe failed (response
None, no TLS) also yields Unknown with response None while keeping the
probe counters. -/
theorem scan_service_guarded (k : PyCharKind) (hints : HintsTable) (port : Nat)
    (cfg : ServiceScanConfig) (outcome : ScanOutcome) :
    (∀ body, outcome = ScanOutcome.ran body → port = 9100 ∨ port = 631 →
      scan_service k hints port cfg outcome
        = ⟨("Printer".toList), none, none, 0, 0, false⟩) ∧
    (outcome = ScanOutcome.loopErr →
      scan_service k hints port cfg outcome
        = ⟨("Unknown".toList), none, none, 0, 0, false⟩) ∧
    (port ∉ PRINTER_PORTS →
      outcome = ScanOutcome.ran ScanBody.timeoutErr ∨
        outcome = ScanOutcome.ran ScanBody.exc →
      scan_service k hints port cfg outcome
        = ⟨("Unknown".toList), none, none, 0, 0, false⟩) ∧
    (∀ pr, port ∉ PRINTER_PORTS → outcome = ScanOutcome.ran (ScanBody.ok pr) →
      pr.response = none → pr.is_tls = false →
      scan_service k hints port cfg outcome
        = ⟨("Unknown".toList), none, none, pr.probes_sent, pr.probes_received, false⟩) := by
  refine ⟨?_, ?_, ?_, ?_⟩
  · intro body ho hp
    rw [ho]
    show _async_scan_service k hints port body = _
    unfold _async_scan_service
    rw [if_pos (show port ∈ PRINTER_PORTS by
      rcases hp with h | h <;> simp [PRINTER_PORTS, h])]
  · intro ho
    rw [ho]
    rfl
  · intro hp ho
    rcases ho with h | h <;> rw [h]
    · show _async_scan_service k hints port ScanBody.timeoutErr = _
      unfold _async_scan_service
      rw [if_neg hp]
    · show _async_scan_service k hints port ScanBody.exc = _
      unfold _async_scan_service
      rw [if_neg hp]
  · intro pr hp ho hre htls
    rw [ho]
    show _async_scan_service k hints port (ScanBody.ok pr) = _
    unfold _async_scan_service
    rw [if_neg hp]
    simp only [hre]
    unfold scan_service_noresp
    rw [htls]
    rfl

/-- Witness for C10 (amended): the printer shortcut when the loop ran the
coroutine, Unknown at the same printer port on an event-loop failure, a
timeout at port 80, and an all-probes-failed run at port 8080. -/
theorem scan_service_guarded_witness :
    scan_service asciiKind [] 9100 ⟨5, ServiceScanStrategy.BASIC, 10⟩
        (ScanOutcome.ran (ScanBody.ok ⟨none, none, none, 6, 0, false⟩))
      = ⟨("Printer".toList), none, none, 0, 0, false⟩ ∧
    scan_service asciiKind [] 9100 ⟨5, ServiceScanStrategy.BASIC, 10⟩ ScanOutcome.loopErr
      = ⟨("Unknown".toList), none, none, 0, 0, false⟩ ∧
    scan_service asciiKind [] 80 ⟨5, ServiceScanStrategy.BASIC, 10⟩
        (ScanOutcome.ran ScanBody.timeoutErr)
      = ⟨("Unknown".toList), none, none, 0, 0, false⟩ ∧
    scan_service asciiKind [] 8080 ⟨5, ServiceScanStrategy.BASIC, 10⟩
        (ScanOutcome.ran (ScanBody.ok ⟨none, none, none, 6, 0, false⟩))
      = ⟨("Unknown".toList), none, none, 6, 0, false⟩ := by
  refine ⟨?_, ?_, ?_, ?_⟩
  · exact (scan_service_guarded asciiKind [] 9100 ⟨5, ServiceScanStrategy.BASIC, 10⟩
      (ScanOutcome.ran (ScanBody.ok ⟨none, none, none, 6, 0, false⟩))).1 _ rfl (Or.inl rfl)
  · exact (scan_service_guarded asciiKind [] 9100 ⟨5, ServiceScanStrategy.BASIC, 10⟩
      ScanOutcome.loopErr).2.1 rfl
  · exact (scan_service_guarded asciiKind [] 80 ⟨5, ServiceScanStrategy.BASIC, 10⟩
      (ScanOutcome.ran ScanBody.timeoutErr)).2.2.1 (by decide) (Or.inl rfl)
  · exact (scan_service_guarded asciiKind [] 8080 ⟨5, ServiceScanStrategy.BASIC, 10⟩
      (ScanOutcome.ran (ScanBody.ok ⟨none, none, none, 6, 0, false⟩))).2.2.2 _ (by decide) rfl rfl rfl
